import Mathlib

/-!
Verification of the calendar-ai backend's event-resolution logic.

This file gives a shallow embedding of the parts of the backend that the
verified properties are about:

* the event store rows (database/models/event.py, class EventModel) and the
  adapter operations over them (adapter/event_adapter.py):
  conflict checking, range queries, single/bulk deletion, create and update;
* the pydantic Event model (models.py, class Event) and its validation,
  which the adapter's row conversion and the filter agents' rehydration go
  through — including the fact that the required created_at field is never
  passed at those call sites, so the construction always raises;
* the flow layer (flow/state.py, flow/list_agent/list_agent.py,
  flow/delete_agent/delete_agent.py, flow/update_agent/update_agent.py,
  flow/builder.py): the disambiguation/filter agents, the per-turn state and
  the is_success channel with its reducer.

Datetimes are embedded as integers (minutes since an arbitrary epoch): the
code only ever compares datetimes and adds minute-valued durations to them,
so any linearly ordered time representation with addition is faithful.
The database session is embedded as the list of stored rows; SQL SELECT with
a WHERE clause becomes List.filter, LIMIT 1 becomes List.find?, ORDER BY
becomes a sort, and DELETE ... WHERE becomes a filter that drops matching
rows. SQL three-valued logic on a NULL column is embedded by making the
comparison false (the row is not selected) when the optional field is none.
A raised Python exception becomes an Except error value.
-/

/-- A row of the events table (database/models/event.py, EventModel).
The internal autoincrement primary key is omitted: no embedded operation
reads it. The endDate column is declared nullable in the type annotation of
the ORM model, so it is embedded as an Option; startDate is NOT NULL. -/
structure EventModel where
  event_id : String
  title : String
  startDate : Int
  endDate : Option Int
  location : Option String
  user_id : Int
deriving DecidableEq, Repr

/-- The pydantic Event model (models.py, classes EventBase and Event): the
fields declared without a default — id, title, startDate, user_id and
created_at — are required; endDate, duration and location are Optional.
This is the in-memory Event value that a successful validation would
produce. -/
structure FlowEvent where
  id : String
  title : String
  startDate : Int
  endDate : Option Int := none
  duration : Option Int := none
  location : Option String := none
  user_id : Int
  created_at : String
deriving DecidableEq, Repr

/-- The exceptions a conversion to the pydantic Event can raise: the
TypeError of subtracting from a NULL endDate in _convert_to_model, and the
pydantic ValidationError for a missing required field. -/
inductive ConversionError
| typeError
| validationError
deriving DecidableEq, Repr

/-- Construction of a pydantic Event (models.py, class Event): validation
succeeds only when every required field — id, title, startDate and
created_at (user_id is passed at every call site) — is present; otherwise
pydantic raises ValidationError.  The adapter's _convert_to_model and the
filter agents' rehydration never pass created_at, so those call sites
supply none for it. -/
def eventValidate (id title : Option String) (startDate endDate duration : Option Int)
    (location : Option String) (user_id : Int) (created_at : Option String) :
    Except ConversionError FlowEvent :=
  match id, title, startDate, created_at with
  | some i, some t, some s, some c =>
    .ok { id := i, title := t, startDate := s, endDate := endDate,
          duration := duration, location := location, user_id := user_id,
          created_at := c }
  | _, _, _, _ => .error .validationError

theorem eventValidate_no_created_at (id title : Option String)
    (startDate endDate duration : Option Int) (location : Option String)
    (user_id : Int) :
    eventValidate id title startDate endDate duration location user_id none
      = .error .validationError := by
  unfold eventValidate
  cases id <;> cases title <;> cases startDate <;> rfl

/-- EventAdapter._convert_to_model (adapter/event_adapter.py, lines 26-41):
the duration is computed in minutes from the date pair (the subtraction
raises TypeError when endDate is NULL), and Event(...) is then constructed
with id, title, startDate, endDate, duration, location and user_id — but
WITHOUT the required created_at field (models.py, class Event), so pydantic
raises ValidationError on every call. -/
def _convert_to_model (row : EventModel) : Except ConversionError FlowEvent :=
  match row.endDate with
  | none => .error .typeError
  | some d =>
    eventValidate (some row.event_id) (some row.title) (some row.startDate)
      (some d) (some (d - row.startDate)) row.location row.user_id none

theorem convert_to_model_always_fails (row : EventModel) :
    ∃ err, _convert_to_model row = .error err := by
  unfold _convert_to_model
  cases hd : row.endDate with
  | none => exact ⟨.typeError, rfl⟩
  | some d => exact ⟨.validationError, eventValidate_no_created_at _ _ _ _ _ _ _⟩

/-- Condition EventModel.endDate > start_date of the conflict query; a NULL
endDate compares as unknown in SQL, so the row is not selected. -/
def endAfter (ev : EventModel) (s : Int) : Bool :=
  match ev.endDate with
  | some d => decide (s < d)
  | none => false

/-- Condition EventModel.endDate == end_date of the conflict query, with the
same NULL semantics. -/
def endEq (ev : EventModel) (e : Int) : Bool :=
  match ev.endDate with
  | some d => decide (d = e)
  | none => false

/-- The OR of the two AND-clauses of the conflict query in
EventAdapter.check_event_conflict (adapter/event_adapter.py, lines 449-458):
(startDate < end AND endDate > start) OR (startDate == start AND endDate == end). -/
def conflictCond (s e : Int) (ev : EventModel) : Bool :=
  (decide (ev.startDate < e) && endAfter ev s) ||
    (decide (ev.startDate = s) && endEq ev e)

/-- The exclusion condition appended when exclude_event_id is truthy
(adapter/event_adapter.py, lines 461-462).  Python appends the condition
only under `if exclude_event_id:`, so passing an empty string (falsy)
excludes nothing, exactly like passing None. -/
def excludeCond (ex : Option String) (ev : EventModel) : Bool :=
  match ex with
  | none => true
  | some x => if x = "" then true else decide (ev.event_id ≠ x)

/-- The full WHERE clause of the conflict query: owner filter, overlap-or-
exact-match, and the optional exclusion. -/
def conflictQuery (u : Int) (s e : Int) (ex : Option String) (ev : EventModel) : Bool :=
  decide (ev.user_id = u) && conflictCond s e ev && excludeCond ex ev

/-- Propositional reading of conflictCond: open-interval overlap
(existing.start < new.end and existing.end > new.start) or exact boundary
match (existing.start = new.start and existing.end = new.end). -/
def ConflictProp (s e : Int) (ev : EventModel) : Prop :=
  (ev.startDate < e ∧ ∃ d, ev.endDate = some d ∧ s < d) ∨
    (ev.startDate = s ∧ ev.endDate = some e)

theorem conflictCond_iff (s e : Int) (ev : EventModel) :
    conflictCond s e ev = true ↔ ConflictProp s e ev := by
  unfold conflictCond ConflictProp endAfter endEq
  cases h : ev.endDate <;> simp [h]

theorem excludeCond_iff (ex : Option String) (ev : EventModel) (hex : ex ≠ some "") :
    excludeCond ex ev = true ↔ ∀ x, ex = some x → ev.event_id ≠ x := by
  unfold excludeCond
  cases ex with
  | none => simp
  | some x =>
    have hx : x ≠ "" := by
      intro h
      exact hex (by rw [h])
    simp [hx]

theorem conflictQuery_iff (u : Int) (s e : Int) (ex : Option String)
    (ev : EventModel) (hex : ex ≠ some "") :
    conflictQuery u s e ex ev = true ↔
      ev.user_id = u ∧ ConflictProp s e ev ∧ ∀ x, ex = some x → ev.event_id ≠ x := by
  unfold conflictQuery
  rw [Bool.and_eq_true, Bool.and_eq_true, conflictCond_iff, excludeCond_iff ex ev hex,
    decide_eq_true_eq, and_assoc]

/-- The row-level SELECT of the conflict check is right: it finds a row iff
some stored event of the owner, other than the excluded one, overlaps the
window or matches it exactly, and the found row is such an event.  This
supports the analysis of check_event_conflict below: the query is correct;
it is the subsequent conversion that breaks the function. -/
theorem conflict_row_query_spec (store : List EventModel) (u : Int) (s e : Int)
    (ex : Option String) (hex : ex ≠ some "") :
    ((store.find? (conflictQuery u s e ex)).isSome ↔
      ∃ ev ∈ store, ev.user_id = u ∧ ConflictProp s e ev ∧
        ∀ x, ex = some x → ev.event_id ≠ x) ∧
    (∀ c, store.find? (conflictQuery u s e ex) = some c →
      c ∈ store ∧ c.user_id = u ∧ ConflictProp s e c ∧
        ∀ x, ex = some x → c.event_id ≠ x) := by
  constructor
  · rw [List.find?_isSome]
    constructor
    · rintro ⟨ev, hmem, hq⟩
      exact ⟨ev, hmem, (conflictQuery_iff u s e ex ev hex).mp hq⟩
    · rintro ⟨ev, hmem, hprop⟩
      exact ⟨ev, hmem, (conflictQuery_iff u s e ex ev hex).mpr hprop⟩
  · intro c hc
    have hmem := List.mem_of_find?_eq_some hc
    have hq := List.find?_some hc
    exact ⟨hmem, (conflictQuery_iff u s e ex c hex).mp hq⟩

/-- EventAdapter.check_event_conflict (adapter/event_adapter.py, lines
427-479) in full: SELECT ... WHERE conditions LIMIT 1; when a row is found
it is converted by _convert_to_model (line 470) INSIDE the try, so the
ValidationError the conversion raises (created_at missing) is caught by the
except Exception branch (lines 477-479), which returns None — the same
value as the no-conflict outcome. -/
def check_event_conflict (store : List EventModel) (u : Int) (s e : Int)
    (ex : Option String) : Option FlowEvent :=
  match store.find? (conflictQuery u s e ex) with
  | some row =>
    match _convert_to_model row with
    | .ok ev => some ev
    | .error _ => none
  | none => none

/-- A stored event of user 1 occupying minutes 0 to 30; it overlaps the
window [10, 50) used below. -/
def conflictDemoRow : EventModel :=
  { event_id := "aaa", title := "standup", startDate := 0, endDate := some 30,
    location := none, user_id := 1 }

/-- A two-event demo store: both events are owned by user 1 and the first
one overlaps the window used below. -/
def conflictDemoStore : List EventModel :=
  [ conflictDemoRow,
    { event_id := "bbb", title := "review", startDate := 40, endDate := some 70,
      location := none, user_id := 1 } ]

/-- C1 is violated by the code: the WHERE clause does select the right row
(conflict_row_query_spec above), but the pydantic conversion of the found
row always raises because the required created_at field is never passed,
and the surrounding except returns None — so check_event_conflict returns
None on EVERY input and never reports a conflicting event, even when one
exists, as the demo store with window [10, 50) and owner 1 shows. -/
theorem check_event_conflict_never_reports :
    (∀ (store : List EventModel) (u s e : Int) (ex : Option String),
      check_event_conflict store u s e ex = none) ∧
    (∃ row ∈ conflictDemoStore, row.user_id = 1 ∧ ConflictProp 10 50 row) := by
  constructor
  · intro store u s e ex
    unfold check_event_conflict
    cases hf : store.find? (conflictQuery u s e ex) with
    | none => rfl
    | some row =>
      obtain ⟨err, herr⟩ := convert_to_model_always_fails row
      simp [herr]
  · exact ⟨conflictDemoRow, by decide, rfl, Or.inl ⟨by decide, 30, rfl, by decide⟩⟩

/-- EventAdapter.check_event_conflict including the store failure case: when
the underlying store operation fails (SQLAlchemyError or any other
exception), the except branch logs and returns None.  The store outcome is
embedded as an Except value. -/
def check_event_conflict_run (dbResult : Except String (List EventModel))
    (u : Int) (s e : Int) (ex : Option String) : Option FlowEvent :=
  match dbResult with
  | .ok store => check_event_conflict store u s e ex
  | .error _ => none

/-- C3: contrary to the claim, a store error inside check_event_conflict is
NOT surfaced distinctly: the except branches return None, the exact value
that means no conflict was found.  This theorem evaluates the code on every
store-error execution and shows the result is the no-conflict value. -/
theorem check_event_conflict_store_error_returns_none :
    ∀ (msg : String) (u s e : Int) (ex : Option String),
      check_event_conflict_run (Except.error msg) u s e ex = none := by
  intro msg u s e ex
  rfl

/-- The EventCreate request shape (models.py, class EventCreate).  The
endDate field may be supplied, but the conversion to a database row ignores
it; duration is in minutes. -/
structure EventCreate where
  title : String
  startDate : Int
  duration : Option Int := none
  endDate : Option Int := none
  location : Option String := none
  user_id : Int
deriving DecidableEq, Repr

/-- EventAdapter._convert_to_db_model (adapter/event_adapter.py, lines
43-58): end_date is startDate plus duration minutes when duration is truthy
and strictly positive, otherwise startDate itself.  Python truthiness makes
duration=0 fall to the else branch just like a missing or negative
duration.  The database assigns a fresh UUID event_id; it is passed here as
a parameter. -/
def _convert_to_db_model (user_id : Int) (d : EventCreate) (new_id : String) : EventModel :=
  let end_date : Int :=
    match d.duration with
    | some k => if 0 < k then d.startDate + k else d.startDate
    | none => d.startDate
  { event_id := new_id, title := d.title, startDate := d.startDate,
    endDate := some end_date, location := d.location, user_id := user_id }

/-- EventAdapter.create_event (adapter/event_adapter.py, lines 65-93) up to
and including the commit: convert the request, add the row to the store,
commit.  The pair is the new store and the committed row.  The Python
return statement after the commit (line 84) converts the row with
_convert_to_model, which raises (created_at missing) and is surfaced as
DatabaseError — but only AFTER the commit, so the stored row, which the
verified properties are about, is exactly as modelled here. -/
def create_event (store : List EventModel) (user_id : Int) (d : EventCreate)
    (new_id : String) : List EventModel × EventModel :=
  let db_event := _convert_to_db_model user_id d new_id
  (store ++ [db_event], db_event)

/-- C10: every event stored by create_event has a non-null endDate equal to
startDate plus duration minutes when a strictly positive duration is given
and to startDate otherwise (absent, zero or negative duration); the single
expression with max covers both cases.  Hence endDate is at least startDate
for every event created through this path, and the new row is what got
appended to the store. -/
theorem create_event_endDate_spec :
    ∀ (store : List EventModel) (u : Int) (d : EventCreate) (nid : String),
      (create_event store u d nid).2.endDate
          = some (d.startDate + max (d.duration.getD 0) 0) ∧
      (∃ v, (create_event store u d nid).2.endDate = some v ∧
        (create_event store u d nid).2.startDate ≤ v) ∧
      (create_event store u d nid).1 = store ++ [(create_event store u d nid).2] := by
  intro store u d nid
  have hend : (create_event store u d nid).2.endDate
      = some (d.startDate + max (d.duration.getD 0) 0) := by
    unfold create_event _convert_to_db_model
    cases hd : d.duration with
    | none => simp
    | some k =>
      by_cases hk : 0 < k
      · have : max k 0 = k := max_eq_left (le_of_lt hk)
        simp [hk, this]
      · have : max k 0 = 0 := max_eq_right (le_of_not_lt hk)
        simp [hk, this]
  refine ⟨hend, ⟨d.startDate + max (d.duration.getD 0) 0, hend, ?_⟩, rfl⟩
  have hs : (create_event store u d nid).2.startDate = d.startDate := rfl
  rw [hs]
  have : (0 : Int) ≤ max (d.duration.getD 0) 0 := le_max_right _ _
  omega

/-- The EventUpdate request shape (models.py, class EventUpdate): a partial
update, every field optional.  The endDate field is accepted by the model
but never read by update_event. -/
structure EventUpdate where
  title : Option String := none
  startDate : Option Int := none
  duration : Option Int := none
  endDate : Option Int := none
  location : Option String := none
deriving DecidableEq, Repr

/-- Errors raised by EventAdapter.update_event
(exceptions/event_exceptions.py). -/
inductive UpdateError
| notFound
| permissionDenied
deriving DecidableEq, Repr

/-- The field recomputation of EventAdapter.update_event
(adapter/event_adapter.py, lines 291-320): title, startDate and location
are replaced when given; when duration or startDate is given, endDate is
recomputed as the (new or existing) startDate plus the given duration in
minutes, a missing duration being treated as 0.  When no field is given the
row is returned unchanged. -/
def applyUpdate (old : EventModel) (d : EventUpdate) : EventModel :=
  let base : EventModel :=
    { old with
      title := d.title.getD old.title,
      startDate := d.startDate.getD old.startDate,
      location := match d.location with | some l => some l | none => old.location }
  if d.duration.isSome || d.startDate.isSome then
    { base with endDate := some (d.startDate.getD old.startDate + d.duration.getD 0) }
  else base

/-- EventAdapter.update_event (adapter/event_adapter.py, lines 260-334) up
to and including the commit: look the row up by event_id, raise
EventNotFoundError when absent and EventPermissionError when owned by
another user, otherwise apply the partial update, write the row back and
commit (line 315).  The pair is the committed store and the committed row.
The Python return statement after the commit (line 318) converts the row
with _convert_to_model, which raises (created_at missing) and is surfaced
as DatabaseError — but only AFTER the commit (the rollback in the handler
is a no-op on a committed transaction), so the stored row, which the
verified properties are about, is exactly as modelled here. -/
def update_event (store : List EventModel) (event_id : String) (user_id : Int)
    (d : EventUpdate) : Except UpdateError (List EventModel × EventModel) :=
  match store.find? (fun ev => ev.event_id == event_id) with
  | none => .error .notFound
  | some db_event =>
    if db_event.user_id ≠ user_id then .error .permissionDenied
    else
      .ok (store.map (fun ev => if ev.event_id == event_id then applyUpdate db_event d else ev),
        applyUpdate db_event d)

/-- A one-event store for the update counterexample and witness. -/
def updateDemoStore : List EventModel :=
  [ { event_id := "e1", title := "meeting", startDate := 100, endDate := some 160,
      location := none, user_id := 1 } ]

/-- The row stored after updating the demo event with duration = 0. -/
def updatedDemoEvent : EventModel :=
  { event_id := "e1", title := "meeting", startDate := 100, endDate := some 100,
    location := none, user_id := 1 }

/-- C4 counterexample: updating the demo event with duration = 0 does NOT
clear the stored endDate to null; the update succeeds and the stored
endDate is some value (namely the startDate). -/
theorem update_duration_zero_not_cleared :
    ∃ p : List EventModel × EventModel,
      update_event updateDemoStore "e1" 1 { duration := some 0 } = .ok p ∧
      p.2.endDate ≠ none :=
  ⟨([updatedDemoEvent], updatedDemoEvent), rfl, by decide⟩

/-- C4 as amended: when an update changes startDate or supplies a duration,
the stored endDate is recomputed as the updated startDate plus the supplied
duration in minutes (missing duration treated as 0); in particular a
duration of 0 sets endDate equal to the updated startDate, it never clears
endDate to null. -/
theorem update_event_endDate_spec (store : List EventModel) (eid : String)
    (u : Int) (d : EventUpdate) (st : List EventModel) (ev : EventModel)
    (h : update_event store eid u d = .ok (st, ev))
    (hchange : d.duration.isSome || d.startDate.isSome) :
    ev.endDate = some (ev.startDate + d.duration.getD 0) ∧
    (d.duration = some 0 → ev.endDate = some ev.startDate) := by
  unfold update_event at h
  split at h
  · exact absurd h (by simp)
  · split at h
    · exact absurd h (by simp)
    · simp only [Except.ok.injEq, Prod.mk.injEq] at h
      obtain ⟨-, hev⟩ := h
      subst hev
      unfold applyUpdate
      rw [if_pos hchange]
      refine ⟨rfl, ?_⟩
      intro hdur
      rw [hdur]
      simp

theorem update_event_endDate_spec_witness :
    (update_event updateDemoStore "e1" 1 { duration := some 0 } =
      .ok ([updatedDemoEvent], updatedDemoEvent)) ∧
    (((some 0 : Option Int).isSome || (none : Option Int).isSome) = true) ∧
    (updatedDemoEvent.endDate
        = some (updatedDemoEvent.startDate + (({ duration := some 0 } : EventUpdate).duration.getD 0)) ∧
      (({ duration := some 0 } : EventUpdate).duration = some 0 →
        updatedDemoEvent.endDate = some updatedDemoEvent.startDate)) :=
  ⟨rfl, rfl,
    update_event_endDate_spec updateDemoStore "e1" 1 { duration := some 0 }
      [updatedDemoEvent] updatedDemoEvent rfl rfl⟩

/-- Comparison by startDate, the ORDER BY key of the range query. -/
def startLe (a b : EventModel) : Prop :=
  a.startDate ≤ b.startDate

instance : DecidableRel startLe :=
  fun a b => inferInstanceAs (Decidable (a.startDate ≤ b.startDate))

instance : IsTotal EventModel startLe :=
  ⟨fun a b => Int.le_total a.startDate b.startDate⟩

instance : IsTrans EventModel startLe :=
  ⟨fun _ _ _ hab hbc => Int.le_trans hab hbc⟩

/-- The WHERE clause of EventAdapter.get_events_by_date_range
(adapter/event_adapter.py, lines 237-245): owner filter, plus
startDate >= start_date when a start bound is given and
endDate <= end_date when an end bound is given, each bound independent.
A NULL endDate fails the SQL comparison and the row is not selected. -/
def rangeCond (u : Int) (sOpt eOpt : Option Int) (ev : EventModel) : Bool :=
  decide (ev.user_id = u) &&
    (match sOpt with | some s => decide (s ≤ ev.startDate) | none => true) &&
    (match eOpt with
     | some e => (match ev.endDate with | some d => decide (d ≤ e) | none => false)
     | none => true)

/-- The row-level SELECT of the range query (adapter/event_adapter.py, lines
237-248): SELECT ... WHERE conditions ORDER BY startDate ASC, before any
conversion of the rows. -/
def rows_by_date_range (store : List EventModel) (u : Int)
    (sOpt eOpt : Option Int) : List EventModel :=
  List.insertionSort startLe (store.filter (rangeCond u sOpt eOpt))

theorem rangeCond_iff (u : Int) (sOpt eOpt : Option Int) (ev : EventModel) :
    rangeCond u sOpt eOpt ev = true ↔
      ev.user_id = u ∧ (∀ s, sOpt = some s → s ≤ ev.startDate) ∧
        (∀ e, eOpt = some e → ∃ d, ev.endDate = some d ∧ d ≤ e) := by
  unfold rangeCond
  cases sOpt <;> cases eOpt <;> cases hd : ev.endDate <;> simp [hd, and_assoc]

/-- The row-level SELECT of the range query is right: it yields exactly the
rows owned by the user that satisfy each given bound, sorted ascending by
startDate.  This supports the analysis of get_events_by_date_range below:
the query is correct; it is the subsequent per-row conversion that breaks
the function. -/
theorem rows_by_date_range_spec (store : List EventModel) (u : Int)
    (sOpt eOpt : Option Int) :
    (∀ ev, ev ∈ rows_by_date_range store u sOpt eOpt ↔
      ev ∈ store ∧ ev.user_id = u ∧ (∀ s, sOpt = some s → s ≤ ev.startDate) ∧
        (∀ e, eOpt = some e → ∃ d, ev.endDate = some d ∧ d ≤ e)) ∧
    (rows_by_date_range store u sOpt eOpt).Perm
      (store.filter (rangeCond u sOpt eOpt)) ∧
    (rows_by_date_range store u sOpt eOpt).Sorted startLe := by
  refine ⟨?_, List.perm_insertionSort startLe _, List.sorted_insertionSort startLe _⟩
  intro ev
  unfold rows_by_date_range
  rw [(List.perm_insertionSort startLe (store.filter (rangeCond u sOpt eOpt))).mem_iff,
    List.mem_filter, rangeCond_iff]

/-- The list comprehension of line 250, converting the query rows one by
one with _convert_to_model: the first raising conversion aborts the whole
comprehension with that exception. -/
def convert_rows : List EventModel → Except ConversionError (List FlowEvent)
  | [] => .ok []
  | row :: rest =>
    match _convert_to_model row with
    | .error err => .error err
    | .ok ev =>
      match convert_rows rest with
      | .error err => .error err
      | .ok evs => .ok (ev :: evs)

/-- EventAdapter.get_events_by_date_range (adapter/event_adapter.py, lines
217-257) in full: the query rows are converted per row by _convert_to_model
inside the try; the exception the conversion raises (created_at missing) is
caught by the except branches and re-raised as DatabaseError.  With no
matching rows the comprehension is empty and the empty list is returned. -/
def get_events_by_date_range (store : List EventModel) (u : Int)
    (sOpt eOpt : Option Int) : Except String (List FlowEvent) :=
  match convert_rows (rows_by_date_range store u sOpt eOpt) with
  | .ok evs => .ok evs
  | .error _ => .error "DatabaseError"

/-- C6 is violated by the code: the row-level query is right
(rows_by_date_range_spec above), but the per-row pydantic conversion always
raises because the required created_at field is never passed, so
get_events_by_date_range raises DatabaseError whenever ANY event matches
the window and returns a list only when no event matches (the empty list).
The demo store with owner 1 and no bounds exhibits the failure. -/
theorem get_events_by_date_range_conversion_bug :
    (∀ (store : List EventModel) (u : Int) (sOpt eOpt : Option Int),
      get_events_by_date_range store u sOpt eOpt =
        if (store.filter (rangeCond u sOpt eOpt)).isEmpty then Except.ok []
        else Except.error "DatabaseError") ∧
    (get_events_by_date_range conflictDemoStore 1 none none
      = Except.error "DatabaseError") := by
  have hmain : ∀ (store : List EventModel) (u : Int) (sOpt eOpt : Option Int),
      get_events_by_date_range store u sOpt eOpt =
        if (store.filter (rangeCond u sOpt eOpt)).isEmpty then Except.ok []
        else Except.error "DatabaseError" := by
    intro store u sOpt eOpt
    unfold get_events_by_date_range rows_by_date_range
    have hperm := List.perm_insertionSort startLe (store.filter (rangeCond u sOpt eOpt))
    cases hs : List.insertionSort startLe (store.filter (rangeCond u sOpt eOpt)) with
    | nil =>
      rw [hs] at hperm
      have h0 : store.filter (rangeCond u sOpt eOpt) = [] := hperm.symm.eq_nil
      rw [h0]
      rfl
    | cons row rest =>
      rw [hs] at hperm
      have hne : store.filter (rangeCond u sOpt eOpt) ≠ [] := by
        intro h0
        rw [h0] at hperm
        exact List.cons_ne_nil row rest hperm.eq_nil
      have hempty : (store.filter (rangeCond u sOpt eOpt)).isEmpty = false := by
        rw [Bool.eq_false_iff]
        intro hT
        exact hne (List.isEmpty_iff.mp hT)
      obtain ⟨err, herr⟩ := convert_to_model_always_fails row
      simp [hempty, convert_rows, herr]
  exact ⟨hmain, by rw [hmain]; rfl⟩

/-- The WHERE clause of the bulk delete in
EventAdapter.delete_multiple_events (adapter/event_adapter.py, lines
493-496): event_id IN the given list and user_id matching the caller. -/
def matchesDelete (ids : List String) (u : Int) (ev : EventModel) : Bool :=
  decide (ev.event_id ∈ ids) && decide (ev.user_id = u)

/-- EventAdapter.delete_multiple_events (adapter/event_adapter.py, lines
481-516): DELETE ... WHERE event_id IN ids AND user_id = u; commit only
when rowcount equals the number of requested ids, otherwise roll the
deletion back and return False.  The pair holds the resulting store and the
returned boolean.  No pydantic conversion is involved on this path. -/
def delete_multiple_events (store : List EventModel) (ids : List String)
    (u : Int) : List EventModel × Bool :=
  if (store.filter (matchesDelete ids u)).length = ids.length then
    (store.filter (fun ev => !(matchesDelete ids u ev)), true)
  else
    (store, false)

theorem deleted_count_lt_of_bad_id (store : List EventModel) (ids : List String)
    (u : Int) (hnd : (store.map (fun ev => ev.event_id)).Nodup)
    (bad : String) (hbad : bad ∈ ids)
    (hmiss : ∀ ev ∈ store, ¬(ev.event_id = bad ∧ ev.user_id = u)) :
    (store.filter (matchesDelete ids u)).length < ids.length := by
  classical
  set l := store.filter (matchesDelete ids u) with hl
  have hsub : l.Sublist store := List.filter_sublist store
  have hndl : (l.map (fun ev => ev.event_id)).Nodup :=
    List.Nodup.sublist (hsub.map (fun ev => ev.event_id)) hnd
  have hsubset : (l.map (fun ev => ev.event_id)).toFinset ⊆ ids.toFinset.erase bad := by
    intro x hx
    rw [List.mem_toFinset, List.mem_map] at hx
    obtain ⟨ev, hev, rfl⟩ := hx
    rw [hl, List.mem_filter] at hev
    obtain ⟨hevstore, hevmatch⟩ := hev
    rw [matchesDelete, Bool.and_eq_true, decide_eq_true_eq, decide_eq_true_eq] at hevmatch
    rw [Finset.mem_erase, List.mem_toFinset]
    refine ⟨?_, hevmatch.1⟩
    intro hid
    exact hmiss ev hevstore ⟨hid, hevmatch.2⟩
  calc l.length = (l.map (fun ev => ev.event_id)).length := (List.length_map _ _).symm
    _ = (l.map (fun ev => ev.event_id)).toFinset.card :=
        (List.toFinset_card_of_nodup hndl).symm
    _ ≤ (ids.toFinset.erase bad).card := Finset.card_le_card hsubset
    _ < ids.toFinset.card := Finset.card_erase_lt_of_mem (List.mem_toFinset.mpr hbad)
    _ ≤ ids.length := List.toFinset_card_le _

/-- C7: bulk delete is all-or-nothing.  If any requested id has no stored
event owned by the caller, nothing is deleted and False is returned; and
when True is returned, every requested id named a stored event owned by the
caller and exactly the matching events were removed from the store.  The
hypothesis that stored event ids are distinct reflects the UNIQUE
constraint on the event_id column (database/models/event.py). -/
theorem delete_multiple_events_spec (store : List EventModel) (ids : List String)
    (u : Int) (hnd : (store.map (fun ev => ev.event_id)).Nodup) :
    ((∃ id ∈ ids, ∀ ev ∈ store, ¬(ev.event_id = id ∧ ev.user_id = u)) →
      delete_multiple_events store ids u = (store, false)) ∧
    ((delete_multiple_events store ids u).2 = true →
      (∀ id ∈ ids, ∃ ev ∈ store, ev.event_id = id ∧ ev.user_id = u) ∧
      (delete_multiple_events store ids u).1
        = store.filter (fun ev => !(matchesDelete ids u ev))) := by
  constructor
  · rintro ⟨bad, hbad, hmiss⟩
    have hlt := deleted_count_lt_of_bad_id store ids u hnd bad hbad hmiss
    unfold delete_multiple_events
    rw [if_neg (Nat.ne_of_lt hlt)]
  · intro htrue
    by_cases hcnt : (store.filter (matchesDelete ids u)).length = ids.length
    · constructor
      · intro id hid
        by_contra hmiss
        push_neg at hmiss
        have hlt := deleted_count_lt_of_bad_id store ids u hnd id hid
          (fun ev hev ⟨h1, h2⟩ => hmiss ev hev h1 h2)
        omega
      · unfold delete_multiple_events
        rw [if_pos hcnt]
    · unfold delete_multiple_events at htrue
      rw [if_neg hcnt] at htrue
      exact absurd htrue (by simp)

/-- A demo store and id list for the bulk-delete witness: the second id has
no stored event. -/
def deleteDemoStore : List EventModel :=
  [ { event_id := "d1", title := "gym", startDate := 0, endDate := some 60,
      location := none, user_id := 7 } ]

theorem delete_multiple_events_spec_witness :
    ((deleteDemoStore.map (fun ev => ev.event_id)).Nodup) ∧
    (((∃ id ∈ ["d1", "zzz"], ∀ ev ∈ deleteDemoStore,
        ¬(ev.event_id = id ∧ ev.user_id = 7)) →
      delete_multiple_events deleteDemoStore ["d1", "zzz"] 7 = (deleteDemoStore, false)) ∧
    ((delete_multiple_events deleteDemoStore ["d1", "zzz"] 7).2 = true →
      (∀ id ∈ ["d1", "zzz"], ∃ ev ∈ deleteDemoStore,
        ev.event_id = id ∧ ev.user_id = 7) ∧
      (delete_multiple_events deleteDemoStore ["d1", "zzz"] 7).1
        = deleteDemoStore.filter (fun ev => !(matchesDelete ["d1", "zzz"] 7 ev)))) :=
  ⟨by decide, delete_multiple_events_spec deleteDemoStore ["d1", "zzz"] 7 (by decide)⟩

/-- One JSON object of the array returned by the external model to a filter
agent, with the keys the agents read via dict.get; a missing key reads as
none.  The two date fields are kept as raw strings, to be parsed by the
embedded fromisoformat. -/
structure EventDict where
  id : Option String := none
  title : Option String := none
  startDate : Option String := none
  endDate : Option String := none
  duration : Option Int := none
  location : Option String := none
deriving DecidableEq, Repr

/-- The JSON-parsing outcome of the response text of a COMPLETED model call
in a filter agent: json.loads raised (which happens inside the agent's
try), the parsed value was not a list, or it was a list of objects.  An
exception raised by model.ainvoke itself (list_agent.py line 87,
delete_agent.py line 86) occurs BEFORE the try and, after the bounded
tenacity retries, escapes the node; such an execution never reaches the
logic embedded here and is not a value of this type. -/
inductive LLMResp
| parseFail
| notList
| arr (ds : List EventDict)
deriving DecidableEq, Repr

/-- Rehydration of one entry (list_agent.py lines 93-112, delete_agent.py
lines 92-111): datetime.fromisoformat is applied to the startDate and
endDate strings (a missing key makes it raise, as does a malformed string),
then Event(...) is constructed with id, title, the parsed dates, duration,
location and user_id — but WITHOUT the required created_at field, so
pydantic raises ValidationError; the inner except catches any failure and
drops the entry silently.  In consequence every entry is dropped.  The
fromisoformat function is a parameter of the embedding, as the code
delegates it to the standard library. -/
def rehydrate (parse : String → Option Int) (uid : Int) (d : EventDict) :
    Option FlowEvent :=
  match d.startDate, d.endDate with
  | some ss, some es =>
    match parse ss, parse es with
    | some s, some e =>
      match eventValidate d.id d.title (some s) (some e) d.duration d.location uid none with
      | .ok ev => some ev
      | .error _ => none
    | _, _ => none
  | _, _ => none

theorem rehydrate_eq_none (parse : String → Option Int) (uid : Int)
    (d : EventDict) : rehydrate parse uid d = none := by
  obtain ⟨did, dtitle, dsd, ded, ddur, dloc⟩ := d
  unfold rehydrate
  cases dsd with
  | none => rfl
  | some ss =>
    cases ded with
    | none => rfl
    | some es =>
      cases hps : parse ss with
      | none => simp [hps]
      | some s =>
        cases hpe : parse es with
        | none => simp [hps, hpe]
        | some e => simp [hps, hpe, eventValidate_no_created_at]

/-- The observable result of one filter-agent run: the value written to the
final-filtered-events state key (none when the branch never writes it), the
message appended for the user, the resulting success flag, and whether the
external model was invoked. -/
structure FilterAgentResult where
  final_filtered : Option (List FlowEvent)
  message : String
  is_success : Bool
  invokedModel : Bool
deriving DecidableEq, Repr

/-- list_filter_event_agent (flow/list_agent/list_agent.py, lines 77-128).
When the candidate list from the range query is empty (Python truthiness of
the list), the agent appends the nothing-found message and returns without
invoking the model.  Otherwise the model is invoked; a response that fails
to parse or is not a list yields the generic error message; a list response
is rehydrated entry by entry, the result is stored, and the agent reports
success exactly when some entry survived rehydration (rehydrate_eq_none
above shows none ever does).  The resp parameter is the parsed response of
a completed model call; a raising model call escapes the node before this
logic runs (see LLMResp). -/
def list_filter_event_agent (parse : String → Option Int) (uid : Int)
    (candidates : List FlowEvent) (success0 : Bool) (resp : LLMResp) :
    FilterAgentResult :=
  if candidates.isEmpty then
    { final_filtered := none,
      message := "Listelemek istediginiz bir etkinlik bulunamadı",
      is_success := success0, invokedModel := false }
  else
    match resp with
    | .parseFail =>
      { final_filtered := none,
        message := "Bir hata olustu. Lutfen daha sonra tekrar deneyiniz.",
        is_success := success0, invokedModel := true }
    | .notList =>
      { final_filtered := none,
        message := "Bir hata olustu. Lutfen daha sonra tekrar deneyiniz.",
        is_success := success0, invokedModel := true }
    | .arr ds =>
      let events := ds.filterMap (rehydrate parse uid)
      if events.isEmpty then
        { final_filtered := some events,
          message := "Herhangi bir etkinlik bulunamadı",
          is_success := success0, invokedModel := true }
      else
        { final_filtered := some events,
          message := "Etkinlikleri asagida gorebilirsiniz",
          is_success := true, invokedModel := true }

/-- delete_filter_event_agent (flow/delete_agent/delete_agent.py, lines
75-127): identical control flow to the list variant with the delete-branch
messages. -/
def delete_filter_event_agent (parse : String → Option Int) (uid : Int)
    (candidates : List FlowEvent) (success0 : Bool) (resp : LLMResp) :
    FilterAgentResult :=
  if candidates.isEmpty then
    { final_filtered := none,
      message := "Silinecek herhangi bir etkinlik bulunamadı",
      is_success := success0, invokedModel := false }
  else
    match resp with
    | .parseFail =>
      { final_filtered := none,
        message := "Bir hata olustu. Lutfen daha sonra tekrar deneyiniz.",
        is_success := success0, invokedModel := true }
    | .notList =>
      { final_filtered := none,
        message := "Bir hata olustu. Lutfen daha sonra tekrar deneyiniz.",
        is_success := success0, invokedModel := true }
    | .arr ds =>
      let events := ds.filterMap (rehydrate parse uid)
      if events.isEmpty then
        { final_filtered := some events,
          message := "Silinecek herhangi bir etkinlik bulunamadı",
          is_success := success0, invokedModel := true }
      else
        { final_filtered := some events,
          message := "Silinmesini istediginiz etkinlikleri asagida gorebilirsiniz. Lutfen silmek istediginiz etkinligi seciniz.",
          is_success := true, invokedModel := true }

/-- A trivial fromisoformat model for the flow witnesses: it recognises two
fixed timestamps. -/
def demoParse (s : String) : Option Int :=
  if s = "2024-01-16T15:00" then some 900 else
  if s = "2024-01-16T15:30" then some 930 else none

/-- A candidate event used by the flow witness. -/
def demoCandidate : FlowEvent :=
  { id := "c1", title := "standup", startDate := 0, endDate := some 30,
    user_id := 1, created_at := "2024-01-01T00:00:00" }

/-- A well-formed event-shaped model response entry: its id and title are
present and both dates parse.  Even this entry is dropped by rehydration,
because the Event constructed from it lacks the required created_at. -/
def demoInventedDict : EventDict :=
  { id := "ghost", title := "invented", startDate := some "2024-01-16T15:00",
    endDate := some "2024-01-16T15:30" }

/-- C2: the filtered event list of the list or delete filter stage is
always a subset of the candidate list.  The property holds in the code, but
vacuously: the agents perform no membership check against the candidates —
instead, every rehydrated entry omits the required created_at field,
pydantic rejects it, the inner except drops it, and the filtered list is
always empty, so no event (candidate or invented) ever appears in the
output. -/
theorem filter_agents_subset (parse : String → Option Int) (uid : Int)
    (candidates : List FlowEvent) (success0 : Bool) (resp : LLMResp)
    (l : List FlowEvent)
    (hl : (list_filter_event_agent parse uid candidates success0 resp).final_filtered
        = some l ∨
      (delete_filter_event_agent parse uid candidates success0 resp).final_filtered
        = some l) :
    ∀ ev ∈ l, ev ∈ candidates := by
  have hfm : ∀ ds : List EventDict, ds.filterMap (rehydrate parse uid) = [] := by
    intro ds
    rw [List.filterMap_eq_nil_iff]
    intro d _
    exact rehydrate_eq_none parse uid d
  have hl2 : l = [] := by
    rcases hl with h | h
    · unfold list_filter_event_agent at h
      by_cases hc : candidates.isEmpty
      · rw [if_pos hc] at h
        exact absurd h (by simp)
      · rw [if_neg hc] at h
        cases resp with
        | parseFail => exact absurd h (by simp)
        | notList => exact absurd h (by simp)
        | arr ds =>
          dsimp only at h
          rw [hfm ds] at h
          simp at h
          exact h
    · unfold delete_filter_event_agent at h
      by_cases hc : candidates.isEmpty
      · rw [if_pos hc] at h
        exact absurd h (by simp)
      · rw [if_neg hc] at h
        cases resp with
        | parseFail => exact absurd h (by simp)
        | notList => exact absurd h (by simp)
        | arr ds =>
          dsimp only at h
          rw [hfm ds] at h
          simp at h
          exact h
  subst hl2
  intro ev hev
  exact absurd hev (List.not_mem_nil ev)

theorem filter_agents_subset_witness :
    ((list_filter_event_agent demoParse 1 [demoCandidate] false
        (.arr [demoInventedDict])).final_filtered = some [] ∨
      (delete_filter_event_agent demoParse 1 [demoCandidate] false
        (.arr [demoInventedDict])).final_filtered = some []) ∧
    (∀ ev ∈ ([] : List FlowEvent), ev ∈ [demoCandidate]) :=
  ⟨Or.inl rfl,
    filter_agents_subset demoParse 1 [demoCandidate] false (.arr [demoInventedDict]) []
      (Or.inl rfl)⟩

/-- C9: when the candidate list from the range query is empty, both filter
agents short-circuit: the result is one fixed nothing-found message, the
final-filtered key is not written, the success flag keeps its previous
value (so it stays false), the model is not invoked, and the result does
not depend on the model response in any way. -/
theorem filter_agents_empty_candidates_short_circuit
    (parse : String → Option Int) (uid : Int) (success0 : Bool) (resp : LLMResp) :
    list_filter_event_agent parse uid [] success0 resp =
      { final_filtered := none,
        message := "Listelemek istediginiz bir etkinlik bulunamadı",
        is_success := success0, invokedModel := false } ∧
    delete_filter_event_agent parse uid [] success0 resp =
      { final_filtered := none,
        message := "Silinecek herhangi bir etkinlik bulunamadı",
        is_success := success0, invokedModel := false } ∧
    (∀ resp2, list_filter_event_agent parse uid [] success0 resp
      = list_filter_event_agent parse uid [] success0 resp2) ∧
    (∀ resp2, delete_filter_event_agent parse uid [] success0 resp
      = delete_filter_event_agent parse uid [] success0 resp2) :=
  ⟨rfl, rfl, fun _ => rfl, fun _ => rfl⟩

/-- The per-turn graph state (flow/state.py, class FlowState, lines 11-33),
with JSON dicts embedded as association lists and messages as their content
strings.  The exact channel list matters: FlowState declares a single
message-list channel, named messages, and no update_messages channel. -/
structure FlowState where
  messages : List String
  input_text : String
  current_datetime : String
  weekday : String
  days_in_month : Int
  user_id : Int
  route : List (String × String)
  create_event_data : List (String × String)
  create_conflict_event : Option FlowEvent
  list_date_range_data : List (String × String)
  list_date_range_filtered_events : List FlowEvent
  list_final_filtered_events : List FlowEvent
  delete_date_range_data : List (String × String)
  delete_date_range_filtered_events : List FlowEvent
  delete_final_filtered_events : List FlowEvent
  update_date_range_data : List (String × String)
  update_date_range_filtered_events : List FlowEvent
  update_final_filtered_events : List FlowEvent
  update_arguments : List (String × String)
  update_conflict_event : Option FlowEvent
  is_success : Bool

/-- Subscript access to a message-list key of the graph state dict.  The
only message-list channel FlowState declares is messages, so looking up any
other key finds no value — in Python, dict subscription then raises
KeyError. -/
def FlowState.messageListChannel (st : FlowState) (key : String) :
    Option (List String) :=
  if key = "messages" then some st.messages else none

/-- A Python exception escaping a graph node. -/
inductive StageError
| keyError (key : String)
deriving DecidableEq, Repr

/-- update_date_range_agent (flow/update_agent/update_agent.py, lines
25-46).  The first statement after prompt formatting reads
state["update_messages"] (line 34), OUTSIDE the try/except that guards the
model call and the JSON parsing.  FlowState declares no update_messages
channel, so the subscript raises KeyError; the tenacity decorator retries
only OpenAIError and RateLimitError, so the KeyError escapes the node.  The
branch below for a present key mirrors the fact that the function would
return the state; it is unreachable, because the lookup never succeeds on a
FlowState, and the body behind it is therefore not modelled further. -/
def update_date_range_agent (st : FlowState) : Except StageError FlowState :=
  match st.messageListChannel "update_messages" with
  | none => .error (.keyError "update_messages")
  | some _ => .ok st

/-- C5 is violated by the update branch: for every state the graph can hand
to the update extraction stage, the stage raises KeyError on the absent
update_messages channel instead of terminating in a message-producing
fallback, so the exception escapes the orchestrator. -/
theorem update_date_range_agent_key_error (st : FlowState) :
    update_date_range_agent st = .error (.keyError "update_messages") := rfl

/-- merge_is_success (flow/state.py, lines 7-8), the reducer annotated on
the is_success channel: it returns the newly written value, ignoring the
old one (last writer wins). -/
def merge_is_success (_old new : Bool) : Bool :=
  new

/-- The nodes of the compiled graph (flow/builder.py, lines 15-32). -/
inductive Node
| router_agent
| router_message_handler
| create_agent
| create_message_handler
| check_event_conflict
| create_conflict_message_handler
| list_date_range_agent
| list_message_handler
| list_event_by_date_range
| list_filter_event_agent
| delete_date_range_agent
| delete_message_handler
| delete_event_by_date_range
| delete_filter_event_agent
| update_date_range_agent
| update_message_handler
| get_events_for_update
| update_filter_event_agent
deriving DecidableEq, Repr

/-- The value each node writes to the is_success channel, as a function of
the value the channel held when the node ran and of an oracle boolean
saying whether the node's success branch ran (no conflict found for the
create-branch conflict check; a non-empty rehydrated list for the three
filter agents — outcomes that depend on the store and the external model).
none means the node returns a partial update that does not mention
is_success, so the channel keeps its value.  Traced from the source:

* the four message handlers and the conflict message handler return only a
  messages (or update_messages) entry and never write is_success;
* router_agent, create_agent, the three date-range extraction agents and
  the two range-query nodes return the state they received, so they write
  back the value the channel already held;
* check_event_conflict (flow/create_agent/create_agent.py, line 71),
  list_filter_event_agent (list_agent.py, line 120), delete_filter_event_agent
  (delete_agent.py, line 118) and update_filter_event_agent
  (update_agent.py, line 145) assign True on their success branch and
  otherwise return the held value unchanged, which is the held value OR the
  oracle. -/
def nodeSuccessWrite (n : Node) (old oracle : Bool) : Option Bool :=
  match n with
  | .router_agent => some old
  | .router_message_handler => none
  | .create_agent => some old
  | .create_message_handler => none
  | .check_event_conflict => some (old || oracle)
  | .create_conflict_message_handler => none
  | .list_date_range_agent => some old
  | .list_message_handler => none
  | .list_event_by_date_range => some old
  | .list_filter_event_agent => some (old || oracle)
  | .delete_date_range_agent => some old
  | .delete_message_handler => none
  | .delete_event_by_date_range => some old
  | .delete_filter_event_agent => some (old || oracle)
  | .update_date_range_agent => some old
  | .update_message_handler => none
  | .get_events_for_update => some old
  | .update_filter_event_agent => some (old || oracle)

/-- One node execution acting on the is_success channel: a write goes
through the merge_is_success reducer against the held value, no write
leaves the channel untouched. -/
def stepSuccess (flag : Bool) (s : Node × Bool) : Bool :=
  match nodeSuccessWrite s.1 flag s.2 with
  | none => flag
  | some w => merge_is_success flag w

/-- The is_success value after a sequence of node executions, each paired
with its oracle outcome, starting from a given channel value.  The channel
starts at false for a turn: assistant_service.process passes no is_success
key in the flow input and the boolean channel defaults to False. -/
def runSuccess (flag : Bool) (tr : List (Node × Bool)) : Bool :=
  tr.foldl stepSuccess flag

theorem stepSuccess_true (s : Node × Bool) : stepSuccess true s = true := by
  obtain ⟨n, b⟩ := s
  cases n <;> simp [stepSuccess, nodeSuccessWrite, merge_is_success]

theorem foldl_stepSuccess_true (tr : List (Node × Bool)) :
    tr.foldl stepSuccess true = true := by
  induction tr with
  | nil => rfl
  | cons s tr ih => rw [List.foldl_cons, stepSuccess_true, ih]

/-- C8: the turn-level success flag is monotonic over the pipeline's step
relation.  It starts false (the empty execution yields false), and for
every sequence of node executions — whatever each node's store and model
outcomes are — once the flag has become true, running any further nodes
never yields a state in which it is false again. -/
theorem is_success_monotone :
    runSuccess false [] = false ∧
    ∀ pre post, runSuccess false pre = true →
      runSuccess false (pre ++ post) = true := by
  refine ⟨rfl, ?_⟩
  intro pre post h
  unfold runSuccess at h ⊢
  rw [List.foldl_append, h, foldl_stepSuccess_true]

theorem is_success_monotone_witness :
    runSuccess false [(Node.list_filter_event_agent, true)] = true ∧
    runSuccess false
      ([(Node.list_filter_event_agent, true)] ++
        [(Node.router_agent, false), (Node.router_message_handler, false)]) = true :=
  ⟨by decide,
    is_success_monotone.2 [(Node.list_filter_event_agent, true)]
      [(Node.router_agent, false), (Node.router_message_handler, false)] (by decide)⟩
